import Mathlib

/-!
Verification of the workflow orchestration and status-tracking client of the
Synevyr repository (frontend/src/app/dashboard/connect-data/page.tsx).

The embedding translates the TypeScript/React component into pure Lean
functions.  React `useState` state is an explicit `ComponentState` record;
the asynchronous poll loop `startPollingMulti` becomes a `tick` function from
a state and a record of network responses to a new state plus a Boolean that
is `true` exactly when the code takes the `else` branch at the end of a tick
(firing `refresh()` and scheduling no further tick) and `false` exactly when
it schedules the next tick via `setTimeout`.

A crucial, faithfully modelled detail: inside `tick`, the identifiers
`ingestStatus` / `cleanStatus` read on the done-check line are the React
state values captured by the closure at the render in which
`startPollingMulti` was called (they never change across ticks), NOT the
values just written with `setIngestStatus` / `setCleanStatus`.  The
`PollClosure` record carries those captured values.  JavaScript truthiness
(empty string and `null`/`undefined` are falsy) is modelled explicitly where
the source relies on it.
-/

/-- Celery-style task state, from the `TaskState` union type of the source. -/
inductive TaskState where
  | PENDING
  | STARTED
  | PROGRESS
  | SUCCESS
  | FAILURE
  | RETRY
deriving DecidableEq, Repr

/-- The `TaskStatusInfo` payload; every field is optional, as in the source. -/
structure TaskStatusInfo where
  percent : Option Int := none
  processed : Option Int := none
  total : Option Int := none
  source_id : Option Int := none
  source_name : Option String := none
  inserted : Option Int := none
  duplicates : Option Int := none
  message : Option String := none
  error : Option String := none
deriving DecidableEq, Repr

/-- The `TaskStatus` record returned by `GET /tasks/{id}/status`. -/
structure TaskStatus where
  task_id : String
  state : TaskState
  ready : Bool
  successful : Option Bool
  info : Option TaskStatusInfo
deriving DecidableEq, Repr

/-- Outcome of one HTTP status request: `ok s` is a 2xx response whose JSON
body parses as `s`; `err body` is a non-success response with raw body text
`body` (the code reads it with `await res.text()`). -/
inductive PollResponse where
  | ok (s : TaskStatus)
  | err (body : String)
deriving DecidableEq, Repr

/-- The React state slice of the component that the orchestration logic
reads and writes: `ingestTaskId`, `cleanTaskId`, `finalTaskId`,
`ingestStatus`, `cleanStatus` (`none` models JavaScript `null`). -/
structure ComponentState where
  ingestTaskId : Option String
  cleanTaskId : Option String
  finalTaskId : Option String
  ingestStatus : Option TaskStatus
  cleanStatus : Option TaskStatus
deriving DecidableEq, Repr

/-- The environment captured by the closure created by
`startPollingMulti(ingestId, cleanId)`: the two job-id arguments, and the
values of the `ingestStatus` / `cleanStatus` state variables at the render
that created the closure.  These captured values are frozen for the lifetime
of the polling loop (the recursive `setTimeout` re-invokes the same `tick`
closure). -/
structure PollClosure where
  ingestId : Option String
  cleanId : Option String
  capturedIngest : Option TaskStatus
  capturedClean : Option TaskStatus
deriving DecidableEq, Repr

/-- Network responses consumed by one execution of `tick`: the status fetch
used to update the stored status (lines 344 and 357 of the source) and the
extra status fetch made by the done-check helpers `ingestResOkReady` /
`taskReady` (lines 369-370), for each of the two stage slots.  A field is
simply unread when the corresponding fetch does not happen. -/
structure TickEnv where
  ingestUpd : PollResponse
  ingestChk : PollResponse
  cleanUpd : PollResponse
  cleanChk : PollResponse
deriving DecidableEq, Repr

/-- JavaScript truthiness of a nullable string (`null`, `undefined` and `""`
are falsy), as used in `if (ingestId)` and `ingestTaskId && ...`. -/
def strTruthy : Option String → Bool
  | none => false
  | some s => s ≠ ""

/-- `status?.ready` under `Boolean(...)`: `undefined` (from a `null` status)
is falsy. -/
def optReady : Option TaskStatus → Bool
  | none => false
  | some s => s.ready

/-- The synthetic terminal status built on a non-success status response
(source lines 350-352 and 363-365): spread of the previous status with
`state: "FAILURE", ready: true, successful: false, info: { message: txt }`. -/
def synthFailure (p : TaskStatus) (txt : String) : TaskStatus :=
  { p with
      state := .FAILURE
      ready := true
      successful := some false
      info := some { message := some txt } }

/-- The per-job status update of one tick: a 2xx response overwrites the
stored status with the parsed body; a non-success response replaces the
stored status with `synthFailure` when a previous status exists, and leaves
`null` unchanged (`prev ? { ...prev, ... } : null`). -/
def applyPoll (prev : Option TaskStatus) : PollResponse → Option TaskStatus
  | .ok s => some s
  | .err txt => prev.map (fun p => synthFailure p txt)

/-- The done-check helpers `ingestResOkReady` / `taskReady` (source lines
379-391, two identical copies): a fresh status fetch; non-success responses
yield `false`, success responses yield the reported `ready` flag. -/
def taskReadyChk : PollResponse → Bool
  | .ok s => s.ready
  | .err _ => false

/-- One execution of the `tick` closure of `startPollingMulti`.  Returns the
new component state and the done flag: `true` means the code ran
`void refresh()` and scheduled no further tick; `false` means it scheduled
the next tick after 1 second.  Note that the done computation on lines
369-370 reads the closure-captured statuses (`cl.capturedIngest`,
`cl.capturedClean`), short-circuiting to the extra fetch `taskReadyChk` when
the captured status is not ready; it never reads the statuses just stored. -/
def tick (cl : PollClosure) (st : ComponentState) (env : TickEnv) :
    ComponentState × Bool :=
  let st1 := if strTruthy cl.ingestId then
      { st with ingestStatus := applyPoll st.ingestStatus env.ingestUpd }
    else st
  let st2 := if strTruthy cl.cleanId then
      { st1 with cleanStatus := applyPoll st1.cleanStatus env.cleanUpd }
    else st1
  let ingestDone := if strTruthy cl.ingestId then
      optReady cl.capturedIngest || taskReadyChk env.ingestChk
    else true
  let cleanDone := if strTruthy cl.cleanId then
      optReady cl.capturedClean || taskReadyChk env.cleanChk
    else true
  (st2, ingestDone && cleanDone)

/-- State after `n` executions of `tick`, with the same responses `env` at
every tick (the scenario of interest repeats one server behaviour). -/
def runPoll (cl : PollClosure) (env : TickEnv) (st : ComponentState) :
    Nat → ComponentState
  | 0 => st
  | n + 1 => (tick cl (runPoll cl env st n) env).1

/-- ASCII lowercasing of a character code (`A`-`Z` map to `a`-`z`), the
fragment of `toLowerCase()` relevant to the ASCII signature searched for. -/
def lowCode (n : Nat) : Nat := if 65 ≤ n && n ≤ 90 then n + 32 else n

/-- `p` is a leading run of `s` (on character codes). -/
def chPre : List Nat → List Nat → Bool
  | [], _ => true
  | _ :: _, [] => false
  | p :: ps, c :: cs => p == c && chPre ps cs

/-- Does `pat` occur as a contiguous run inside the second list?
(JavaScript `String.prototype.includes` on character codes.) -/
def chSub (pat : List Nat) : List Nat → Bool
  | [] => chPre pat []
  | c :: cs => chPre pat (c :: cs) || chSub pat cs

/-- JavaScript `haystack.toLowerCase().includes(pat)` for an ASCII search
pattern, computed on character codes so the kernel can evaluate it. -/
def strIncludesLower (haystack pat : String) : Bool :=
  chSub (pat.data.map Char.toNat)
    (haystack.data.map (fun c => lowCode c.toNat))

/-- The connectivity-fault signature the classifier looks for. -/
def dbNeedle : String := "database connection failed"

/-- `hasConnectionError` from the source (lines 77-86), including the
JavaScript truthiness of the two `if` guards: an absent `info`, an absent
field or an empty string falls through.  When `info.error` is truthy it
alone decides the result; `info.message` is consulted only otherwise. -/
def hasConnectionError : Option TaskStatus → Bool
  | none => false
  | some s =>
    match strTruthy (s.info.bind TaskStatusInfo.error) ,
        s.info.bind TaskStatusInfo.error with
    | true, some e => strIncludesLower e dbNeedle
    | _, _ =>
      match strTruthy (s.info.bind TaskStatusInfo.message) ,
          s.info.bind TaskStatusInfo.message with
      | true, some m => strIncludesLower m dbNeedle
      | _, _ => false

/-- The failure categories of the spec's Failure Classifier. -/
inductive FailureCategory where
  | INFRA_CONNECTIVITY
  | GENERIC_FAILURE
  | NONE
deriving DecidableEq, Repr

/-- The spec's `classify`: the INFRA_CONNECTIVITY branch is the source's
`hasConnectionError`; the GENERIC_FAILURE / NONE split is the source's
`state === "FAILURE"` checks used alongside it. -/
def classify (s : TaskStatus) : FailureCategory :=
  if hasConnectionError (some s) then .INFRA_CONNECTIVITY
  else if s.state = .FAILURE then .GENERIC_FAILURE
  else .NONE

/-- `s.state === t` through an optional chain on a nullable status. -/
def stateIs (st : Option TaskStatus) (t : TaskState) : Bool :=
  match st with
  | none => false
  | some s => s.state = t

/-- `Math.max(0, Math.min(100, p))`. -/
def clampPct (p : Int) : Int := max 0 (min 100 p)

/-- The `ingestPct` projection (source lines 397-404). -/
def ingestPct (st : Option TaskStatus) : Int :=
  if stateIs st .SUCCESS then 100
  else if stateIs st .FAILURE || hasConnectionError st then 100
  else match (st.bind TaskStatus.info).bind TaskStatusInfo.percent with
    | some p => clampPct p
    | none =>
      if stateIs st .STARTED || stateIs st .PENDING then 1 else 0

/-- The `cleanPct` projection (source lines 406-413); its fall-through
values are 10 rather than 1 and 0. -/
def cleanPct (st : Option TaskStatus) : Int :=
  if stateIs st .SUCCESS then 100
  else if stateIs st .FAILURE || hasConnectionError st then 100
  else match (st.bind TaskStatus.info).bind TaskStatusInfo.percent with
    | some p => clampPct p
    | none =>
      if stateIs st .STARTED || stateIs st .PENDING then 10 else 10

/-- `Boolean(taskId && status && !status.ready)` — the running-guard used by
every launcher and by the `disabled` flags. -/
def isRunning (taskId : Option String) (status : Option TaskStatus) : Bool :=
  match taskId, status with
  | some t, some s => t ≠ "" && !s.ready
  | _, _ => false

/-- The JSON body of a successful `POST /tasks/run/extract-data` or
`POST /tasks/run/extract-transform-load` kickoff
(`WorkflowKickoffResponse`); only the fields the component reads. -/
structure WorkflowKickoffResponse where
  extract_task_id : String
  transform_task_id : Option String
  load_task_id : Option String
  final_task_id : String
deriving DecidableEq, Repr

/-- The JSON body of a successful `POST /tasks/run/transform-data` or
`POST /tasks/run/load-analytics` kickoff. -/
structure SimpleKickoff where
  task_id : String
  description : String
deriving DecidableEq, Repr

/-- Outcome of a kickoff HTTP call with parsed body `α`:`ok d` is a 2xx
response, `err body` a non-success response with raw body text `body`. -/
inductive Kickoff (α : Type) where
  | ok (d : α)
  | err (body : String)
deriving DecidableEq, Repr

/-- The status each launcher stores for a freshly spawned job
(`{ task_id, state: "PENDING", ready: false, successful: null, info: null }`). -/
def pendingStatus (id : String) : TaskStatus :=
  { task_id := id, state := .PENDING, ready := false,
    successful := none, info := none }

/-- Result of running one launcher function: the component state it leaves
behind, whether the kickoff network call was made, the message of the
`Error` it threw (if any), and the closure handed to `startPollingMulti`
(if polling was started). -/
structure LaunchResult where
  newState : ComponentState
  networkCall : Bool
  thrown : Option String
  polling : Option PollClosure
deriving DecidableEq, Repr

/-- `extractData` (source lines 203-232).  The guard returns early with no
network call; a non-success kickoff throws before any state is written; a
success stores the extract task id and a PENDING status, clears the clean
slot, and starts polling with `(extract_task_id, null)`.  The closure
captures the pre-launch statuses (React state writes do not update the
current render's bindings). -/
def extractData (st : ComponentState)
    (resp : Kickoff WorkflowKickoffResponse) : LaunchResult :=
  if isRunning st.ingestTaskId st.ingestStatus then
    ⟨st, false, none, none⟩
  else match resp with
    | .err txt => ⟨st, true, some txt, none⟩
    | .ok d =>
      let st' : ComponentState :=
        { ingestTaskId := some d.extract_task_id
          cleanTaskId := none
          finalTaskId := some d.final_task_id
          ingestStatus := some (pendingStatus d.extract_task_id)
          cleanStatus := none }
      ⟨st', true, none,
        some ⟨some d.extract_task_id, none, st.ingestStatus, st.cleanStatus⟩⟩

/-- `transformData` (source lines 235-264): guarded by the clean slot only;
on success it nulls the ingest slot, stores the transform task id and a
PENDING status in the clean slot, and starts polling with
`(null, task_id)`. -/
def transformData (st : ComponentState) (_forceReprocess : Bool)
    (resp : Kickoff SimpleKickoff) : LaunchResult :=
  if isRunning st.cleanTaskId st.cleanStatus then
    ⟨st, false, none, none⟩
  else match resp with
    | .err txt => ⟨st, true, some txt, none⟩
    | .ok d =>
      let st' : ComponentState :=
        { ingestTaskId := none
          cleanTaskId := some d.task_id
          finalTaskId := some d.task_id
          ingestStatus := none
          cleanStatus := some (pendingStatus d.task_id) }
      ⟨st', true, none,
        some ⟨none, some d.task_id, st.ingestStatus, st.cleanStatus⟩⟩

/-- `loadAnalytics` (source lines 267-296): identical state discipline to
`transformData` — guarded by the clean slot only, nulls the ingest slot. -/
def loadAnalytics (st : ComponentState)
    (resp : Kickoff SimpleKickoff) : LaunchResult :=
  if isRunning st.cleanTaskId st.cleanStatus then
    ⟨st, false, none, none⟩
  else match resp with
    | .err txt => ⟨st, true, some txt, none⟩
    | .ok d =>
      let st' : ComponentState :=
        { ingestTaskId := none
          cleanTaskId := some d.task_id
          finalTaskId := some d.task_id
          ingestStatus := none
          cleanStatus := some (pendingStatus d.task_id) }
      ⟨st', true, none,
        some ⟨none, some d.task_id, st.ingestStatus, st.cleanStatus⟩⟩

/-- `runFullETL` (source lines 299-339): guarded by both slots; on success
it stores both task ids, a PENDING status for the extract job, a PENDING
status for the transform job when its id is truthy
(`if (data.transform_task_id)`), and starts polling with both ids. -/
def runFullETL (st : ComponentState)
    (resp : Kickoff WorkflowKickoffResponse) : LaunchResult :=
  if isRunning st.ingestTaskId st.ingestStatus ||
      isRunning st.cleanTaskId st.cleanStatus then
    ⟨st, false, none, none⟩
  else match resp with
    | .err txt => ⟨st, true, some txt, none⟩
    | .ok d =>
      let st' : ComponentState :=
        { ingestTaskId := some d.extract_task_id
          cleanTaskId := d.transform_task_id
          finalTaskId := some d.final_task_id
          ingestStatus := some (pendingStatus d.extract_task_id)
          cleanStatus :=
            if strTruthy d.transform_task_id then
              d.transform_task_id.map pendingStatus
            else none }
      ⟨st', true, none,
        some ⟨some d.extract_task_id, d.transform_task_id,
          st.ingestStatus, st.cleanStatus⟩⟩

/-- A nullable string that is present in the sense of the classifier: a
non-empty string value.  Returns `none` for an absent or empty field. -/
def presentStr : Option String → Option String
  | none => none
  | some s => if s = "" then none else some s

/-- The classifier condition as the specification words it: the
INFRA_CONNECTIVITY signature holds iff `info.error` — or, only when no
(non-empty) `info.error` is present, `info.message` — contains the
case-insensitive substring "database connection failed". -/
def specInfraCond (s : TaskStatus) : Bool :=
  match presentStr (s.info.bind TaskStatusInfo.error) with
  | some e => strIncludesLower e dbNeedle
  | none =>
    match presentStr (s.info.bind TaskStatusInfo.message) with
    | some m => strIncludesLower m dbNeedle
    | none => false

/-- All stored statuses of the slots tracked by the closure `cl` are ready
in state `st` (an untracked slot counts as vacuously ready). -/
def allTrackedReady (cl : PollClosure) (st : ComponentState) : Bool :=
  (if strTruthy cl.ingestId then optReady st.ingestStatus else true) &&
  (if strTruthy cl.cleanId then optReady st.cleanStatus else true)

/-- Claim C1 as stated: at the end of every poll tick, the done decision
(refresh fired, no further tick) agrees with "every tracked job's stored
status has `ready == true`" computed on the post-tick state. -/
def doneMatchesReadyClaim : Prop :=
  ∀ (cl : PollClosure) (st : ComponentState) (env : TickEnv),
    (tick cl st env).2 = allTrackedReady cl (tick cl st env).1

/-- Claim C4's monotonicity half as stated: within an invocation, once a
slot's stored `ready` flag is true it stays true across any later tick. -/
def readyNeverRegressesClaim : Prop :=
  ∀ (cl : PollClosure) (st : ComponentState) (env : TickEnv),
    (optReady st.ingestStatus = true →
      optReady (tick cl st env).1.ingestStatus = true) ∧
    (optReady st.cleanStatus = true →
      optReady (tick cl st env).1.cleanStatus = true)

/-- Component state of a freshly mounted page: no ids, no statuses. -/
def stEmpty : ComponentState := ⟨none, none, none, none, none⟩

/-- Kickoff body of an extract-only launch spawning job `t1`. -/
def kickC3 : WorkflowKickoffResponse := ⟨"t1", none, none, "t1"⟩

/-- State right after the extract-only launch of `t1` from a fresh mount. -/
def stC3 : ComponentState :=
  ⟨some "t1", none, some "t1", some (pendingStatus "t1"), none⟩

/-- The polling closure of that launch: tracking `t1` only, with the
pre-launch (null) statuses captured. -/
def clC3 : PollClosure := ⟨some "t1", none, none, none⟩

/-- Every status request answered with HTTP 500. -/
def env500 : TickEnv :=
  ⟨.err "Internal Server Error", .err "Internal Server Error",
    .err "Internal Server Error", .err "Internal Server Error"⟩

/-- The synthetic status stored for `t1` after a failed poll. -/
def synthT1 : TaskStatus :=
  synthFailure (pendingStatus "t1") "Internal Server Error"

/-- A recovered server's answer on a later tick: `t1` running, not ready. -/
def progT1 : TaskStatus :=
  ⟨"t1", .PROGRESS, false, none, some { percent := some 40 }⟩

/-- State whose ingest slot stores the synthesized ready failure for `t1`
(the state after one all-500 tick of the `clC3` invocation). -/
def stC4 : ComponentState :=
  ⟨some "t1", none, some "t1", some synthT1, none⟩

/-- Tick responses in which both update fetches succeed with the non-ready
`progT1` while the done-check fetches still fail. -/
def envC4 : TickEnv :=
  ⟨.ok progT1, .err "Internal Server Error",
    .ok progT1, .err "Internal Server Error"⟩

/-- A closure tracking two jobs with no captured statuses. -/
def clBoth : PollClosure := ⟨some "t1", some "t2", none, none⟩

/-- State tracking `t1` and `t2` with both just-launched PENDING statuses. -/
def stBoth : ComponentState :=
  ⟨some "t1", some "t2", some "t2",
    some (pendingStatus "t1"), some (pendingStatus "t2")⟩

/-- State tracking `t1` and `t2` whose stored statuses are still null. -/
def stNullSt : ComponentState := ⟨some "t1", some "t2", some "t2", none, none⟩

/-- Every status request answered with a non-success body "boom". -/
def envBoom : TickEnv := ⟨.err "boom", .err "boom", .err "boom", .err "boom"⟩

lemma hasConnectionError_eq_spec (s : TaskStatus) :
    hasConnectionError (some s) = specInfraCond s := by
  unfold hasConnectionError specInfraCond
  cases he : s.info.bind TaskStatusInfo.error with
  | none =>
    cases hm : s.info.bind TaskStatusInfo.message with
    | none => simp [he, hm, strTruthy, presentStr]
    | some m => by_cases h : m = "" <;> simp [he, hm, strTruthy, presentStr, h]
  | some e =>
    by_cases h : e = ""
    · subst h
      cases hm : s.info.bind TaskStatusInfo.message with
      | none => simp [he, hm, strTruthy, presentStr]
      | some m =>
        by_cases h2 : m = "" <;> simp [he, hm, strTruthy, presentStr, h2]
    · simp [he, strTruthy, presentStr, h]

lemma classify_infra_iff (s : TaskStatus) :
    classify s = .INFRA_CONNECTIVITY ↔ hasConnectionError (some s) = true := by
  cases h : hasConnectionError (some s) with
  | false =>
    simp only [classify, h]
    by_cases hs : s.state = .FAILURE <;> simp [hs]
  | true => simp [classify, h]

lemma tick_ingestStatus (cl : PollClosure) (st : ComponentState)
    (env : TickEnv) (h : strTruthy cl.ingestId = true) :
    (tick cl st env).1.ingestStatus = applyPoll st.ingestStatus env.ingestUpd := by
  unfold tick
  cases hc : strTruthy cl.cleanId <;> simp [h, hc]

/-- C1: the claim "at the end of a poll tick the invocation is done iff
every tracked job's stored status has `ready == true`" is FALSE of the
code: with one tracked job, all-500 responses and no captured status, the
tick stores the synthesized ready failure (all tracked statuses ready) yet
the done decision — computed from the closure-captured status and a fresh
re-fetch, never from the stored statuses — schedules another tick. -/
theorem c1_done_vs_ready_counterexample : ¬ doneMatchesReadyClaim := by
  intro h
  exact absurd (h clC3 stC3 env500) (by decide)

/-- C1 (amended): at the end of a poll tick the invocation is considered
done iff, for each slot tracked by the polling closure, either the status
captured by the closure at launch time was ready, or the slot's extra
done-check status fetch succeeds and reports `ready == true`; an unused
slot counts as vacuously done.  The statuses stored during the tick are
not consulted. -/
theorem c1_amended_done_characterization :
    ∀ (cl : PollClosure) (st : ComponentState) (env : TickEnv),
      (tick cl st env).2 =
        ((!strTruthy cl.ingestId || optReady cl.capturedIngest ||
            taskReadyChk env.ingestChk) &&
          (!strTruthy cl.cleanId || optReady cl.capturedClean ||
            taskReadyChk env.cleanChk)) := by
  intro cl st env
  unfold tick
  cases h1 : strTruthy cl.ingestId <;> cases h2 : strTruthy cl.cleanId <;>
    simp [h1, h2]

/-- C2: a non-success status response during polling is not propagated:
when the slot holds a last-known status, the tick replaces it with the
synthetic terminal status `{ state: FAILURE, ready: true, successful:
false, info: { message: <raw response body> } }` (the spread keeps the
remaining fields of the previous status).  `tick` is total — the error
branch produces a state instead of raising. -/
theorem c2_transport_error_synthesized :
    ∀ (cl : PollClosure) (st : ComponentState) (env : TickEnv),
      (∀ txt p, strTruthy cl.ingestId = true → env.ingestUpd = .err txt →
        st.ingestStatus = some p →
        (tick cl st env).1.ingestStatus = some
          { p with
              state := .FAILURE
              ready := true
              successful := some false
              info := some { message := some txt } }) ∧
      (∀ txt q, strTruthy cl.cleanId = true → env.cleanUpd = .err txt →
        st.cleanStatus = some q →
        (tick cl st env).1.cleanStatus = some
          { q with
              state := .FAILURE
              ready := true
              successful := some false
              info := some { message := some txt } }) := by
  intro cl st env
  constructor
  · intro txt p h1 h2 h3
    unfold tick
    cases hc : strTruthy cl.cleanId <;>
      simp [h1, hc, h2, h3, applyPoll, synthFailure]
  · intro txt q h1 h2 h3
    unfold tick
    cases hi : strTruthy cl.ingestId <;>
      simp [h1, hi, h2, h3, applyPoll, synthFailure]

theorem c2_transport_error_synthesized_witness :
    (tick clBoth stBoth envBoom).1.ingestStatus = some
      { pendingStatus "t1" with
          state := .FAILURE
          ready := true
          successful := some false
          info := some { message := some "boom" } } ∧
    (tick clBoth stBoth envBoom).1.cleanStatus = some
      { pendingStatus "t2" with
          state := .FAILURE
          ready := true
          successful := some false
          info := some { message := some "boom" } } :=
  ⟨(c2_transport_error_synthesized clBoth stBoth envBoom).1 "boom"
      (pendingStatus "t1") rfl rfl rfl,
    (c2_transport_error_synthesized clBoth stBoth envBoom).2 "boom"
      (pendingStatus "t2") rfl rfl rfl⟩

/-- C3: evaluation of the code on the claimed scenario, refuting the claim's
termination half.  From a fresh mount, the extract-only launch of `t1`
creates exactly the state `stC3` and the polling closure `clC3`; when every
status request returns HTTP 500, then after every tick the stored status of
`t1` IS the synthesized FAILURE/ready status (the claim's first half), yet
the tick's done flag is `false` on EVERY tick `n` — the loop schedules the
next tick forever and the invocation never reaches DONE, because the done
check reads only the closure-captured (null) status and a fresh re-fetch
that yields `false` on a non-success response. -/
theorem c3_http500_stores_failure_but_never_done :
    extractData stEmpty (.ok kickC3) = ⟨stC3, true, none, some clC3⟩ ∧
    ∀ n : Nat,
      (runPoll clC3 env500 stC3 (n + 1)).ingestStatus = some synthT1 ∧
      (tick clC3 (runPoll clC3 env500 stC3 n) env500).2 = false := by
  constructor
  · decide
  · intro n
    constructor
    · induction n with
      | zero => decide
      | succ k ih =>
        show (tick clC3 (runPoll clC3 env500 stC3 (k + 1)) env500).1.ingestStatus
          = some synthT1
        rw [tick_ingestStatus clC3 (runPoll clC3 env500 stC3 (k + 1)) env500
          (by decide), ih]
        decide
    · unfold tick
      simp [clC3, env500, strTruthy, optReady, taskReadyChk]

/-- C4: the monotonicity half of the claim is FALSE of the code.  After a
tick whose failed poll synthesized a ready FAILURE for `t1` (state `stC4`),
a later tick whose poll succeeds with the non-ready `progT1` (the backend
recovered) overwrites the stored status, regressing `ready` from true back
to false. -/
theorem c4_ready_regression_counterexample : ¬ readyNeverRegressesClaim := by
  intro h
  exact absurd ((h clC3 stC4 envC4).1 (by decide)) (by decide)

/-- C4 (amended): a job's stored status is replaced last-write-wins — a
successful poll's parsed status overwrites the stored one unconditionally,
and a failed poll overwrites it with the synthetic failure derived from the
previous status — but the stored `ready` flag is NOT monotone: a successful
poll reporting `ready == false` after a synthesized failure regresses it
(see the counterexample). -/
theorem c4_amended_last_write_wins :
    ∀ (cl : PollClosure) (st : ComponentState) (env : TickEnv)
      (s : TaskStatus) (txt : String),
      (strTruthy cl.ingestId = true → env.ingestUpd = .ok s →
        (tick cl st env).1.ingestStatus = some s) ∧
      (strTruthy cl.ingestId = true → env.ingestUpd = .err txt →
        (tick cl st env).1.ingestStatus =
          st.ingestStatus.map (fun p => synthFailure p txt)) ∧
      (strTruthy cl.cleanId = true → env.cleanUpd = .ok s →
        (tick cl st env).1.cleanStatus = some s) ∧
      (strTruthy cl.cleanId = true → env.cleanUpd = .err txt →
        (tick cl st env).1.cleanStatus =
          st.cleanStatus.map (fun p => synthFailure p txt)) := by
  intro cl st env s txt
  refine ⟨fun h1 h2 => ?_, fun h1 h2 => ?_, fun h1 h2 => ?_, fun h1 h2 => ?_⟩ <;>
    unfold tick
  · cases hc : strTruthy cl.cleanId <;> simp [h1, hc, h2, applyPoll]
  · cases hc : strTruthy cl.cleanId <;> simp [h1, hc, h2, applyPoll]
  · cases hi : strTruthy cl.ingestId <;> simp [h1, hi, h2, applyPoll]
  · cases hi : strTruthy cl.ingestId <;> simp [h1, hi, h2, applyPoll]

theorem c4_amended_last_write_wins_witness :
    (tick clC3 stC4 envC4).1.ingestStatus = some progT1 :=
  (c4_amended_last_write_wins clC3 stC4 envC4 progT1 "x").1 rfl rfl

/-- C5: any launch attempted while the target slot's guard reports an
active invocation (task id present and non-empty, last-known status present
and not ready) is a no-op: no network call, no thrown error, no polling
started, and the entire tracking state — task ids and statuses of both
slots — unchanged.  `extractData` and `runFullETL` are guarded by the
ingest slot; `transformData`, `loadAnalytics` and `runFullETL` by the
clean slot. -/
theorem c5_guard_refuses_launch :
    ∀ st : ComponentState,
      (∀ t s, st.ingestTaskId = some t → t ≠ "" → st.ingestStatus = some s →
        s.ready = false →
        (∀ r, extractData st r = ⟨st, false, none, none⟩) ∧
        (∀ r, runFullETL st r = ⟨st, false, none, none⟩)) ∧
      (∀ t s, st.cleanTaskId = some t → t ≠ "" → st.cleanStatus = some s →
        s.ready = false →
        (∀ fr r, transformData st fr r = ⟨st, false, none, none⟩) ∧
        (∀ r, loadAnalytics st r = ⟨st, false, none, none⟩) ∧
        (∀ r, runFullETL st r = ⟨st, false, none, none⟩)) := by
  intro st
  constructor
  · intro t s ht hne hs hready
    have hr : isRunning st.ingestTaskId st.ingestStatus = true := by
      rw [ht, hs]; simp [isRunning, hne, hready]
    exact ⟨fun r => by simp [extractData, hr],
      fun r => by simp [runFullETL, hr]⟩
  · intro t s ht hne hs hready
    have hr : isRunning st.cleanTaskId st.cleanStatus = true := by
      rw [ht, hs]; simp [isRunning, hne, hready]
    exact ⟨fun fr r => by simp [transformData, hr],
      fun r => by simp [loadAnalytics, hr],
      fun r => by simp [runFullETL, hr]⟩

theorem c5_guard_refuses_launch_witness :
    extractData stBoth (.err "x") = ⟨stBoth, false, none, none⟩ ∧
    transformData stBoth false (.err "x") = ⟨stBoth, false, none, none⟩ ∧
    loadAnalytics stBoth (.err "x") = ⟨stBoth, false, none, none⟩ ∧
    runFullETL stBoth (.err "x") = ⟨stBoth, false, none, none⟩ :=
  ⟨((c5_guard_refuses_launch stBoth).1 "t1" (pendingStatus "t1") rfl
      (by decide) rfl rfl).1 _,
    ((c5_guard_refuses_launch stBoth).2 "t2" (pendingStatus "t2") rfl
      (by decide) rfl rfl).1 false _,
    ((c5_guard_refuses_launch stBoth).2 "t2" (pendingStatus "t2") rfl
      (by decide) rfl rfl).2.1 _,
    ((c5_guard_refuses_launch stBoth).2 "t2" (pendingStatus "t2") rfl
      (by decide) rfl rfl).2.2 _⟩

/-- C6: when the guard passes and the kickoff call returns a non-success
response, every launcher throws the response body to its caller and creates
no tracking state: the component state is returned unchanged (no task ids,
no statuses), and no polling closure is created.  The kickoff network call
itself was made (`networkCall = true`). -/
theorem c6_kickoff_failure_leaves_no_state :
    ∀ (st : ComponentState) (txt : String),
      (isRunning st.ingestTaskId st.ingestStatus = false →
        extractData st (.err txt) = ⟨st, true, some txt, none⟩) ∧
      (isRunning st.cleanTaskId st.cleanStatus = false →
        (∀ fr, transformData st fr (.err txt) = ⟨st, true, some txt, none⟩) ∧
        loadAnalytics st (.err txt) = ⟨st, true, some txt, none⟩) ∧
      (isRunning st.ingestTaskId st.ingestStatus = false →
        isRunning st.cleanTaskId st.cleanStatus = false →
        runFullETL st (.err txt) = ⟨st, true, some txt, none⟩) := by
  intro st txt
  refine ⟨fun h => ?_, fun h => ⟨fun fr => ?_, ?_⟩, fun h1 h2 => ?_⟩
  · simp [extractData, h]
  · simp [transformData, h]
  · simp [loadAnalytics, h]
  · simp [runFullETL, h1, h2]

theorem c6_kickoff_failure_leaves_no_state_witness :
    extractData stEmpty (.err "denied") =
      ⟨stEmpty, true, some "denied", none⟩ ∧
    transformData stEmpty false (.err "denied") =
      ⟨stEmpty, true, some "denied", none⟩ ∧
    loadAnalytics stEmpty (.err "denied") =
      ⟨stEmpty, true, some "denied", none⟩ ∧
    runFullETL stEmpty (.err "denied") =
      ⟨stEmpty, true, some "denied", none⟩ :=
  ⟨(c6_kickoff_failure_leaves_no_state stEmpty "denied").1 rfl,
    ((c6_kickoff_failure_leaves_no_state stEmpty "denied").2.1 rfl).1 false,
    ((c6_kickoff_failure_leaves_no_state stEmpty "denied").2.1 rfl).2,
    (c6_kickoff_failure_leaves_no_state stEmpty "denied").2.2 rfl rfl⟩

/-- C9: a non-success status response while the slot's last-known status is
null leaves the stored status null — no synthetic FAILURE is created; the
synthesis happens exactly when a previous status record exists. -/
theorem c9_no_synthesis_without_prior_status :
    ∀ (cl : PollClosure) (st : ComponentState) (env : TickEnv)
      (txt1 txt2 : String),
      (st.ingestStatus = none → env.ingestUpd = .err txt1 →
        (tick cl st env).1.ingestStatus = none) ∧
      (st.cleanStatus = none → env.cleanUpd = .err txt2 →
        (tick cl st env).1.cleanStatus = none) ∧
      (∀ p, applyPoll (some p) (.err txt1) = some (synthFailure p txt1) ∧
        applyPoll none (.err txt1) = none) := by
  intro cl st env txt1 txt2
  refine ⟨fun h1 h2 => ?_, fun h1 h2 => ?_, fun p => ⟨rfl, rfl⟩⟩
  · unfold tick
    cases hi : strTruthy cl.ingestId <;> cases hc : strTruthy cl.cleanId <;>
      simp [hi, hc, h1, h2, applyPoll]
  · unfold tick
    cases hi : strTruthy cl.ingestId <;> cases hc : strTruthy cl.cleanId <;>
      simp [hi, hc, h1, h2, applyPoll]

theorem c9_no_synthesis_without_prior_status_witness :
    (tick clBoth stNullSt envBoom).1.ingestStatus = none ∧
    (tick clBoth stNullSt envBoom).1.cleanStatus = none :=
  ⟨(c9_no_synthesis_without_prior_status clBoth stNullSt envBoom
      "boom" "boom").1 rfl rfl,
    (c9_no_synthesis_without_prior_status clBoth stNullSt envBoom
      "boom" "boom").2.1 rfl rfl⟩

/-- C10: a successful transform-only or load-only launch always nulls the
extract slot's task id and status — whatever the extract slot held,
including an active non-terminal invocation — and starts polling with no
ingest id, so an in-flight extract job stops being tracked; moreover the
guard of these launchers consults only the clean slot: two states agreeing
on the clean slot produce the same launch/no-launch decision. -/
theorem c10_transform_load_clear_extract_slot :
    ∀ (st : ComponentState) (fr : Bool) (d : SimpleKickoff),
      (isRunning st.cleanTaskId st.cleanStatus = false →
        transformData st fr (.ok d) =
          ⟨⟨none, some d.task_id, some d.task_id, none,
              some (pendingStatus d.task_id)⟩, true, none,
            some ⟨none, some d.task_id, st.ingestStatus, st.cleanStatus⟩⟩ ∧
        loadAnalytics st (.ok d) =
          ⟨⟨none, some d.task_id, some d.task_id, none,
              some (pendingStatus d.task_id)⟩, true, none,
            some ⟨none, some d.task_id, st.ingestStatus, st.cleanStatus⟩⟩) ∧
      (∀ st' : ComponentState, st.cleanTaskId = st'.cleanTaskId →
        st.cleanStatus = st'.cleanStatus → ∀ r,
        (transformData st fr r).networkCall =
          (transformData st' fr r).networkCall ∧
        (loadAnalytics st r).networkCall =
          (loadAnalytics st' r).networkCall) := by
  intro st fr d
  constructor
  · intro h
    exact ⟨by simp [transformData, h], by simp [loadAnalytics, h]⟩
  · intro st' h1 h2 r
    constructor
    · cases r <;> cases hc : isRunning st'.cleanTaskId st'.cleanStatus <;>
        simp [transformData, h1, h2, hc]
    · cases r <;> cases hc : isRunning st'.cleanTaskId st'.cleanStatus <;>
        simp [loadAnalytics, h1, h2, hc]

theorem c10_transform_load_clear_extract_slot_witness :
    transformData stC3 false (.ok ⟨"t9", "transform"⟩) =
      ⟨⟨none, some "t9", some "t9", none, some (pendingStatus "t9")⟩,
        true, none,
        some ⟨none, some "t9", some (pendingStatus "t1"), none⟩⟩ :=
  ((c10_transform_load_clear_extract_slot stC3 false ⟨"t9", "transform"⟩).1
    rfl).1

/-- C7: the classifier returns INFRA_CONNECTIVITY exactly when the
spec-worded condition holds — `info.error`, or (only when no non-empty
`info.error` is present) `info.message`, contains the case-insensitive
substring "database connection failed" — otherwise GENERIC_FAILURE exactly
when `state == FAILURE`, otherwise NONE.  The closed conjuncts check the
claim's three concrete examples, plus a fourth showing the precedence of
`error` over `message`: a non-matching `error` masks a matching
`message`. -/
theorem c7_classifier_categories :
    ∀ s : TaskStatus,
      ((classify s = .INFRA_CONNECTIVITY ↔ specInfraCond s = true) ∧
        (classify s = .GENERIC_FAILURE ↔
          (specInfraCond s = false ∧ s.state = .FAILURE)) ∧
        (classify s = .NONE ↔
          (specInfraCond s = false ∧ ¬s.state = .FAILURE))) ∧
      classify ⟨"t1", .FAILURE, true, some false,
        some { error := some "Database connection failed: timeout" }⟩ =
          .INFRA_CONNECTIVITY ∧
      classify ⟨"t2", .FAILURE, true, some false,
        some { message := some "KeyError: \x27x\x27" }⟩ = .GENERIC_FAILURE ∧
      classify ⟨"t3", .SUCCESS, true, some true, none⟩ = .NONE ∧
      classify ⟨"t4", .FAILURE, true, some false,
        some { error := some "task exploded",
               message := some "Database connection failed" }⟩ =
          .GENERIC_FAILURE := by
  intro s
  refine ⟨⟨?_, ?_, ?_⟩, by decide, by decide, by decide, by decide⟩
  · rw [← hasConnectionError_eq_spec]
    exact classify_infra_iff s
  · rw [← hasConnectionError_eq_spec]
    cases h : hasConnectionError (some s)
    · by_cases hs : s.state = .FAILURE <;> simp [classify, h, hs]
    · simp [classify, h]
  · rw [← hasConnectionError_eq_spec]
    cases h : hasConnectionError (some s)
    · by_cases hs : s.state = .FAILURE <;> simp [classify, h, hs]
    · simp [classify, h]

/-- C8: the progress projections return 100 on SUCCESS; 100 on FAILURE or a
classified connectivity failure; otherwise, a present numeric
`info.percent` clamped to [0,100]; otherwise, on STARTED or PENDING with no
percent, the fixed nonzero floor 1 for the first (extract) stage and 10 for
the second (transform/clean) stage. -/
theorem c8_progress_projection :
    ∀ s : TaskStatus,
      (s.state = .SUCCESS →
        ingestPct (some s) = 100 ∧ cleanPct (some s) = 100) ∧
      ((s.state = .FAILURE ∨ classify s = .INFRA_CONNECTIVITY) →
        ingestPct (some s) = 100 ∧ cleanPct (some s) = 100) ∧
      (∀ p, s.info.bind TaskStatusInfo.percent = some p →
        ¬s.state = .SUCCESS → ¬s.state = .FAILURE →
        ¬classify s = .INFRA_CONNECTIVITY →
        ingestPct (some s) = clampPct p ∧ cleanPct (some s) = clampPct p ∧
        0 ≤ clampPct p ∧ clampPct p ≤ 100) ∧
      ((s.state = .STARTED ∨ s.state = .PENDING) →
        s.info.bind TaskStatusInfo.percent = none →
        ¬classify s = .INFRA_CONNECTIVITY →
        ingestPct (some s) = 1 ∧ cleanPct (some s) = 10) := by
  intro s
  refine ⟨fun hs => ?_, fun hd => ?_, fun p hp hns hnf hni => ?_,
    fun hsp hp hni => ?_⟩
  · constructor <;> simp [ingestPct, cleanPct, stateIs, hs]
  · rcases hd with hf | hinfra
    · constructor <;> simp [ingestPct, cleanPct, stateIs, hf]
    · have hce : hasConnectionError (some s) = true :=
        (classify_infra_iff s).mp hinfra
      by_cases hs : s.state = .SUCCESS <;>
        constructor <;> simp [ingestPct, cleanPct, stateIs, hs, hce]
  · have hce : hasConnectionError (some s) = false := by
      cases h : hasConnectionError (some s)
      · rfl
      · exact absurd ((classify_infra_iff s).mpr h) hni
    refine ⟨?_, ?_, le_max_left 0 _, ?_⟩
    · simp [ingestPct, stateIs, hns, hnf, hce, hp]
    · simp [cleanPct, stateIs, hns, hnf, hce, hp]
    · exact max_le (by norm_num) (min_le_left 100 p)
  · have hce : hasConnectionError (some s) = false := by
      cases h : hasConnectionError (some s)
      · rfl
      · exact absurd ((classify_infra_iff s).mpr h) hni
    rcases hsp with hst | hpd
    · constructor <;> simp [ingestPct, cleanPct, stateIs, hst, hce, hp]
    · constructor <;> simp [ingestPct, cleanPct, stateIs, hpd, hce, hp]

theorem c8_progress_projection_witness :
    ingestPct (some ⟨"t", .STARTED, false, none, none⟩) = 1 ∧
    cleanPct (some ⟨"t", .STARTED, false, none, none⟩) = 10 ∧
    ingestPct (some ⟨"t", .PROGRESS, false, none,
      some { percent := some 140 }⟩) = clampPct 140 ∧
    clampPct 140 ≤ 100 :=
  ⟨((c8_progress_projection ⟨"t", .STARTED, false, none, none⟩).2.2.2
      (Or.inl rfl) rfl (by decide)).1,
    ((c8_progress_projection ⟨"t", .STARTED, false, none, none⟩).2.2.2
      (Or.inl rfl) rfl (by decide)).2,
    ((c8_progress_projection ⟨"t", .PROGRESS, false, none,
        some { percent := some 140 }⟩).2.2.1 140 rfl (by decide) (by decide)
      (by decide)).1,
    ((c8_progress_projection ⟨"t", .PROGRESS, false, none,
        some { percent := some 140 }⟩).2.2.1 140 rfl (by decide) (by decide)
      (by decide)).2.2.2⟩

theorem c7_classifier_categories_witness :
    classify ⟨"t5", .PROGRESS, false, none, none⟩ = .NONE :=
  ((c7_classifier_categories ⟨"t5", .PROGRESS, false, none, none⟩).1.2.2).mpr
    ⟨by decide, by decide⟩
